import Mathlib

/-!
Verification of the agent-intervention pipeline of `agent_intervention.py`
(process-gpt-completion repository).

The Python code is shallowly embedded: pure helpers become Lean functions on
`List Char` / `String`; the external collaborators (Supabase store, LLM chain,
named-agent responder, default responder) are oracles collected in an `Env`
record; the background pipeline `process_intervention_async` becomes a pure
function from the oracle environment to a trace (`RunState`) recording the
intervention-status writes performed on the message, the audit-log status
writes, the appended response messages, and how often the activation gate and
the decision engine were invoked.
-/

namespace InterventionSpec

/-- Lifecycle states of the per-message intervention record
(values of the `status` field written by the Python code). -/
inductive IStatus where
  | checking
  | not_intervening
  | intervening
  | completed
  | failed
deriving DecidableEq

/-! ## Character-list string utilities (Python `str` operations) -/

/-- Python whitespace as stripped by `str.strip()` (ASCII range). -/
def isPySpace (c : Char) : Bool :=
  c = ' ' || c = '\t' || c = '\n' || c = '\r' || c = '\x0b' || c = '\x0c'

/-- Python `str.strip()`. -/
def pyStripChars (l : List Char) : List Char :=
  ((l.dropWhile isPySpace).reverse.dropWhile isPySpace).reverse

/-- Python `str.startswith(pat)`: first argument is the pattern. -/
def startsWithChars : List Char → List Char → Bool
  | [], _ => true
  | _ :: _, [] => false
  | a :: pa, b :: sb => a = b && startsWithChars pa sb

/-- Python `pat in s` (substring containment); first argument is the
haystack, second the pattern. -/
def hasSubstr : List Char → List Char → Bool
  | [], pat => startsWithChars pat []
  | c :: t, pat => startsWithChars pat (c :: t) || hasSubstr t pat

/-- Worker for `removeAll`; the `Nat` argument counts characters still to be
skipped because they belong to an occurrence already matched (Python
`str.replace` continues scanning after the end of each match). -/
def removeAllAux (pat : List Char) : List Char → Nat → List Char
  | [], _ => []
  | _ :: t, Nat.succ k => removeAllAux pat t k
  | c :: t, 0 =>
    if startsWithChars pat (c :: t) && !pat.isEmpty then
      removeAllAux pat t (pat.length - 1)
    else
      c :: removeAllAux pat t 0

/-- Python `s.replace(pat, "")`: removes every (left-to-right,
non-overlapping) occurrence of `pat`. -/
def removeAll (pat l : List Char) : List Char :=
  removeAllAux pat l 0

/-- The code-fence marker. -/
def fence3 : List Char := ['`', '`', '`']

/-- The json code-fence marker. -/
def fenceJson : List Char := ['`', '`', '`', 'j', 's', 'o', 'n']

/-- The fence-stripping step of `check_intervention_and_select_agent`
(lines 528-532): strip, then if the text starts with a fence marker remove
every occurrence of the marker strings and strip again. -/
def strip_code_fences (s : List Char) : List Char :=
  if startsWithChars fenceJson (pyStripChars s) then
    pyStripChars (removeAll fence3 (removeAll fenceJson (pyStripChars s)))
  else if startsWithChars fence3 (pyStripChars s) then
    pyStripChars (removeAll fence3 (pyStripChars s))
  else pyStripChars s

/-! ## Mention extraction (Python `re.findall(r'@(\w+)', text)`) -/

/-- Worker for `findMentions`; the `Nat` argument counts characters still to
be skipped because they belong to a token already emitted (regex matching is
non-overlapping and continues after each match).  The word-character
predicate `isW` stands for the regex class `\w`. -/
def findMentionsAux (isW : Char → Bool) : List Char → Nat → List (List Char)
  | [], _ => []
  | _ :: t, Nat.succ k => findMentionsAux isW t k
  | c :: t, 0 =>
    if c = '@' then
      let tok := t.takeWhile isW
      if tok.isEmpty then findMentionsAux isW t 0
      else tok :: findMentionsAux isW t tok.length
    else findMentionsAux isW t 0

/-- All `@token` occurrences of the text, in extraction order. -/
def findMentions (isW : Char → Bool) (text : List Char) : List (List Char) :=
  findMentionsAux isW text 0

/-- The match test of the mention loop (line 769):
`mention.lower() in agent_name.lower() or agent_name.lower() in mention.lower()`.
`Char.toLower` models `str.lower` on the ASCII range. -/
def mentionMatch (m : List Char) (name : String) : Bool :=
  let ml := m.map Char.toLower
  let nl := name.data.map Char.toLower
  hasSubstr nl ml || hasSubstr ml nl

/-! ## Participant resolution (`get_chat_room_participants`) -/

/-- The fields of the identity record returned by the `fetch_user_info`
collaborator that the code reads (`is_agent`, `username`, `agent_type`). -/
structure UserInfo where
  is_agent : Bool
  username : Option String
  agent_type : Option String
deriving DecidableEq

/-- An entry of the resolver's `users` list. -/
structure UserEntry where
  id : String
  email : String
  username : String
deriving DecidableEq

/-- An entry of the resolver's `agents` list. -/
structure AgentEntry where
  id : String
  email : Option String
  username : String
  agent_type : String
deriving DecidableEq

/-- Which of the two participant lists a room member lands in. -/
inductive Classified where
  | user (u : UserEntry)
  | agent (a : AgentEntry)
deriving DecidableEq

/-- Python truthiness of the optional `email` field (`not email`). -/
def emailFalsy : Option String → Bool
  | none => true
  | some e => e.isEmpty

/-- Python `a or b` on strings. -/
def strOr (a b : String) : String := if a.isEmpty then b else a

/-- Python `email or participant_id`. -/
def emailOrId (pid : String) (email : Option String) : String :=
  match email with
  | none => pid
  | some e => if e.isEmpty then pid else e

/-- The name-keyword fallback heuristic of line 249:
`any(keyword in username for keyword in ["도우미", "에이전트", "Agent", "Assistant"])`. -/
def keyword_heuristic (username : String) : Bool :=
  ["도우미", "에이전트", "Agent", "Assistant"].any fun k => hasSubstr username.data k.data

/-- Classification of one room member (loop body of
`get_chat_room_participants`, lines 218-285).  `fetch_user_info` returning
`none` models the collaborator raising (the bare `except:` branches). -/
def classify_participant (fetch_user_info : String → Option UserInfo)
    (pid : String) (email : Option String) (username : String) : Classified :=
  if emailFalsy email then
    match fetch_user_info pid with
    | some info =>
      if info.is_agent then
        .agent ⟨pid, email, strOr username (info.username.getD "에이전트"), info.agent_type.getD "agent"⟩
      else
        .user ⟨pid, emailOrId pid email, strOr username (info.username.getD "사용자")⟩
    | none =>
      if keyword_heuristic username then .agent ⟨pid, email, username, "agent"⟩
      else .user ⟨pid, emailOrId pid email, strOr username "사용자"⟩
  else
    match fetch_user_info (email.getD "") with
    | some info =>
      if info.is_agent then
        .agent ⟨pid, email, strOr username (info.username.getD "에이전트"), info.agent_type.getD "agent"⟩
      else
        .user ⟨pid, emailOrId pid email, strOr username (info.username.getD "사용자")⟩
    | none => .user ⟨pid, emailOrId pid email, strOr username "사용자"⟩

/-- A raw member of the room's `participants` list (`id` may be absent). -/
structure RoomMember where
  id : Option String
  email : Option String
  username : String
deriving DecidableEq

/-- The deduplicating fold of `get_chat_room_participants`. -/
def buildParticipants (fetch : String → Option UserInfo) :
    List RoomMember → List String → List UserEntry × List AgentEntry
  | [], _ => ([], [])
  | p :: rest, seen =>
    match p.id with
    | none => buildParticipants fetch rest seen
    | some pid =>
      if pid.isEmpty || seen.contains pid then buildParticipants fetch rest seen
      else
        let r := buildParticipants fetch rest (pid :: seen)
        match classify_participant fetch pid p.email p.username with
        | .user u => (u :: r.1, r.2)
        | .agent a => (r.1, a :: r.2)

/-- `get_chat_room_participants` restricted to its classification work: the
store lookup of the membership list is the `ps` argument. -/
def get_chat_room_participants (fetch : String → Option UserInfo)
    (ps : List RoomMember) : List UserEntry × List AgentEntry :=
  buildParticipants fetch ps []

/-! ## Activation gate (`should_activate_intervention`, lines 298-310) -/

/-- Gate over participant counts: human 1+ with agents 2+, or humans 2+ with
agents 1+. -/
def should_activate_intervention {α β : Type} (users : List α) (agents : List β) : Bool :=
  let user_count := users.length
  let agent_count := agents.length
  let condition1 := decide (1 ≤ user_count) && decide (2 ≤ agent_count)
  let condition2 := decide (2 ≤ user_count) && decide (1 ≤ agent_count)
  condition1 || condition2

/-! ## Decision engine (`check_intervention_and_select_agent`) -/

/-- The decoded JSON decision object, restricted to the keys the code reads.
For each key, the outer `Option` is key presence (`dict.get` returns the
default only when the key is absent) and, where the prompt allows `null`
values, the inner `Option` is JSON `null`. -/
structure DecisionJson where
  should_intervene : Option Bool
  reason : Option (Option String)
  selected_agent_id : Option (Option String)
  confidence : Option (Option ℚ)
  agent_selection_reason : Option (Option String)
deriving DecidableEq

/-- The dictionary returned by `check_intervention_and_select_agent`. -/
structure InterventionResult where
  should_intervene : Bool
  reason : Option String
  selected_agent_id : Option String
  confidence : Option ℚ
  agent_selection_reason : Option String
deriving DecidableEq

/-- `check_intervention_and_select_agent` (lines 486-573).  `inference` is
the outcome of the LLM chain call (`.error` = any exception inside the outer
`try`, including the history fetch and the chain itself); `jsonLoads` models
`json.loads` followed by the dictionary-shaped field reads (`.error` = the
JSON decode or the attribute access raising, caught at line 555). -/
def check_intervention_and_select_agent (inference : Except String String)
    (jsonLoads : List Char → Except String DecisionJson) : InterventionResult :=
  match inference with
  | .error e => ⟨false, some ("에러 발생: " ++ e), none, none, none⟩
  | .ok result =>
    let json_str := strip_code_fences result.data
    match jsonLoads json_str with
    | .error e => ⟨false, some ("JSON 파싱 실패: " ++ e), none, none, none⟩
    | .ok decision =>
      if decision.should_intervene.getD false then
        ⟨true, decision.reason.getD (some "개입 필요"),
          decision.selected_agent_id.getD (some "default"),
          decision.confidence.getD (some 0),
          decision.agent_selection_reason.getD (some "")⟩
      else
        ⟨false, decision.reason.getD (some "개입 불필요"), none, none, none⟩

/-! ## Pipeline environment and trace -/

/-- The shape of the named-agent responder's `response` field that the
dispatch code reads. -/
structure RespDict where
  content : Option String
  html_content : Option String
  rtype : Option String
deriving DecidableEq

/-- One write of the message's intervention record (via
`update_message_intervention` or the inline completed-updates). -/
structure StatusWrite where
  status : IStatus
  reason : Option String
deriving DecidableEq

/-- One response message appended to the conversation store. -/
structure AppendedMsg where
  name : String
  content : String
  html : Option String
  user_message_id : Option Int
  toGroupTable : Bool
deriving DecidableEq

/-- The observable trace of one background pipeline run. -/
structure RunState where
  msgWrites : List StatusWrite
  auditWrites : List IStatus
  appended : List AppendedMsg
  decisionCalls : Nat
  gateCalls : Nat
deriving DecidableEq

/-- Oracle environment: the external collaborators of one pipeline run.
`history_exn` = the unguarded history fetch of lines 722-725 raising;
`named_responder` = outcome of `process_mem0_message_with_history` (the
payload is its `response` field, `none` when that field is not a dict);
`append_exns` = per-attempt outcome of the message-append collaborator
(`none` = success);  `upsert_group_id` = the `id` of the dict returned by
`upsert_group_chat_message` at ingress; `isW` = the regex word-character
class `\w`. -/
structure Env where
  users : List UserEntry
  agents : List AgentEntry
  is_group : Bool
  msg_exists : Bool
  history_exn : Option String
  inference : Except String String
  jsonLoads : List Char → Except String DecisionJson
  named_responder : Except String (Option RespDict)
  default_response : String
  append_exns : List (Option String)
  upsert_group_id : Option Int
  isW : Char → Bool

/-- `update_message_intervention` (lines 154-187): for a group chat whose
message row exists it stores the intervention record; for a non-group chat
(or a missing row) it is a no-op; it swallows its own failures. -/
def update_message_intervention (env : Env) (x : StatusWrite) : List StatusWrite :=
  if env.is_group && env.msg_exists then [x] else []

/-- The inline read-modify-write that sets the message status to `completed`
after a response is persisted (lines 992-1010, 1061-1077, 1120-1136): only
performed for a group chat whose row (with an intervention record) exists. -/
def inline_completed_update (env : Env) : List StatusWrite :=
  if env.is_group && env.msg_exists then [⟨.completed, none⟩] else []

/-- A `save_intervention_log` call at a call site guarded by `g`
(the code guards each call by `is_group and message_id`). -/
def audit_log_write (g : Bool) (s : IStatus) : List IStatus :=
  if g then [s] else []

/-- The error-branch reason string `f"에러 발생: {str(e)}"`. -/
def errReason (e : String) : String := "에러 발생: " ++ e

/-- The mention short-circuit reason string of line 788. -/
def mentionReason (name : String) : String :=
  "에이전트 멘션 감지: " ++ name ++ " 에이전트에게 직접 메시지 전송"

/-- The gate-failure reason string of line 822. -/
def gateFailReason (userCount agentCount : Nat) : String :=
  "개입 활성화 조건 미충족 (사용자: " ++ toString userCount ++ "명, 에이전트: " ++
    toString agentCount ++ "명)"

/-- The first loop of the mention scan: first agent (in list order) matching
the token. -/
def findAgentForMention (m : List Char) : List AgentEntry → Option AgentEntry
  | [] => none
  | a :: rest => if mentionMatch m a.username then some a else findAgentForMention m rest

/-- The outer loop of the mention scan: first token (in extraction order)
with a matching agent wins. -/
def findMentionedAgentIn (agents : List AgentEntry) : List (List Char) → Option AgentEntry
  | [] => none
  | m :: ms =>
    match findAgentForMention m agents with
    | some a => some a
    | none => findMentionedAgentIn agents ms

/-- The full mention detection of lines 760-773. -/
def findMentionedAgent (isW : Char → Bool) (text : List Char)
    (agents : List AgentEntry) : Option AgentEntry :=
  findMentionedAgentIn agents (findMentions isW text)

/-- The dispatch-target test of line 944:
`if selected_agent_id and selected_agent_id != "default"`. -/
def namedTarget : Option String → Option String
  | none => none
  | some s => if s ≠ "" ∧ s ≠ "default" then some s else none

/-- `selected_agent.get("username", "에이전트") if selected_agent else "에이전트"`
(lines 962-963). -/
def agentNameFor (agents : List AgentEntry) (sid : String) : String :=
  match agents.find? (fun a => a.id == sid) with
  | some a => a.username
  | none => "에이전트"

/-- `agent_response_data.get("content", "") if isinstance(...) else ""`. -/
def respContent : Option RespDict → String
  | some r => r.content.getD ""
  | none => ""

/-- `agent_response_data.get("html_content") if isinstance(...) else None`. -/
def respHtml : Option RespDict → Option String
  | some r => r.html_content
  | none => none

/-- Outcome of the k-th message-append attempt of this run
(`none` = the upsert succeeded). -/
def appendExn (env : Env) (k : Nat) : Option String :=
  env.append_exns.getD k none

/-- The fallback branch of the dispatch coordinator (lines 1040-1104):
generate the default response, append it tagged with the originating
message id, set the status to `completed`; if the append itself raises the
outer handler writes `failed`.  `k` is the index of this append attempt. -/
def dispatchFallback (env : Env) (message_id : Int)
    (iw : List StatusWrite) (ac ai : List IStatus) (k : Nat) : RunState :=
  let ga := env.is_group && decide (message_id ≠ 0)
  match appendExn env k with
  | none =>
    ⟨iw ++ inline_completed_update env, ac ++ ai ++ audit_log_write ga .completed,
      [⟨"AI 어시스턴트", env.default_response, none, some message_id, env.is_group⟩], 1, 1⟩
  | some e =>
    ⟨iw ++ update_message_intervention env ⟨.failed, some (errReason e)⟩, ac ++ ai, [], 1, 1⟩

/-- The background pipeline `process_intervention_async` (lines 688-1182) as
a trace function: participant resolution and history fetch, audit `checking`,
mention short-circuit, activation gate, combined decision, dispatch with
fallback, and the outer `failed` handler. -/
def process_intervention_async (env : Env) (message_id : Int) (text : String) : RunState :=
  let ga := env.is_group && decide (message_id ≠ 0)
  match env.history_exn with
  | some e =>
    ⟨update_message_intervention env ⟨.failed, some (errReason e)⟩, [], [], 0, 0⟩
  | none =>
    let ac := audit_log_write ga .checking
    match findMentionedAgent env.isW text.data env.agents with
    | some a =>
      ⟨update_message_intervention env ⟨.not_intervening, some (mentionReason a.username)⟩,
        ac ++ audit_log_write ga .not_intervening, [], 0, 0⟩
    | none =>
      if should_activate_intervention env.users env.agents then
        let ir := check_intervention_and_select_agent env.inference env.jsonLoads
        if ir.should_intervene then
          let iw := update_message_intervention env ⟨.intervening, ir.reason⟩
          let ai := audit_log_write (decide (message_id ≠ 0) && env.is_group) .intervening
          match namedTarget ir.selected_agent_id with
          | some sid =>
            match env.named_responder with
            | .ok respOpt =>
              match appendExn env 0 with
              | none =>
                ⟨iw ++ inline_completed_update env,
                  ac ++ ai ++ audit_log_write ga .completed,
                  [⟨agentNameFor env.agents sid, respContent respOpt, respHtml respOpt,
                    some message_id, env.is_group⟩], 1, 1⟩
              | some _ => dispatchFallback env message_id iw ac ai 1
            | .error _ => dispatchFallback env message_id iw ac ai 0
          | none =>
            match appendExn env 0 with
            | none =>
              ⟨iw ++ inline_completed_update env,
                ac ++ ai ++ audit_log_write ga .completed,
                [⟨"AI 어시스턴트", env.default_response, none, some message_id, false⟩], 1, 1⟩
            | some e =>
              ⟨iw ++ update_message_intervention env ⟨.failed, some (errReason e)⟩,
                ac ++ ai, [], 1, 1⟩
        else
          ⟨update_message_intervention env ⟨.not_intervening, ir.reason⟩,
            ac ++ audit_log_write ga .not_intervening, [], 1, 1⟩
      else
        ⟨update_message_intervention env
            ⟨.not_intervening, some (gateFailReason env.users.length env.agents.length)⟩,
          ac ++ audit_log_write ga .not_intervening, [], 0, 1⟩

/-! ## Ingress (`process_user_message_with_intervention`, lines 601-685) -/

/-- The value returned synchronously by the ingress call. -/
structure IngressReturn where
  message_saved : Bool
  message_id : Option Int
  intervention_status : IStatus
deriving DecidableEq

/-- A user message persisted by the ingress call. -/
structure CreatedMsg where
  email : String
  command : String
  intervention_status : IStatus
  toGroupTable : Bool
deriving DecidableEq

/-- The effects of the ingress call: messages persisted, intervention-record
writes performed, and background pipeline tasks scheduled (by message id). -/
structure IngressEffects where
  created : List CreatedMsg
  msgWrites : List StatusWrite
  scheduled : List Int
deriving DecidableEq

/-- Python truthiness of `Optional[int]` (`if user_message_id:`). -/
def optIntTruthy : Option Int → Bool
  | none => false
  | some n => decide (n ≠ 0)

/-- `if message_id: asyncio.create_task(...)` (lines 663-670). -/
def schedFor : Option Int → List Int
  | none => []
  | some n => if n ≠ 0 then [n] else []

/-- `process_user_message_with_intervention`: with a truthy
`user_message_id`, reset that message's intervention record to `checking`;
otherwise persist a new message carrying a `checking` intervention record
(whose id is known only for group chats).  Then schedule the background
pipeline for a truthy message id and return immediately. -/
def process_user_message_with_intervention (env : Env) (text user_id : String)
    (user_message_id : Option Int) : IngressReturn × IngressEffects :=
  if optIntTruthy user_message_id then
    let message_id := user_message_id
    let writes := update_message_intervention env ⟨.checking, none⟩
    (⟨user_message_id.isNone, message_id, .checking⟩,
      ⟨[], writes, schedFor message_id⟩)
  else
    let created : List CreatedMsg := [⟨user_id, text, .checking, env.is_group⟩]
    let message_id := if env.is_group then env.upsert_group_id else none
    (⟨user_message_id.isNone, message_id, .checking⟩,
      ⟨created, [], schedFor message_id⟩)

/-! ## Status-monotonicity predicate -/

/-- Terminal lifecycle states. -/
def isTerminal : IStatus → Bool
  | .not_intervening => true
  | .completed => true
  | .failed => true
  | _ => false

/-- No status later in the list regresses to `checking` or `intervening`
after a terminal status has been written. -/
def noRegressionB : List IStatus → Bool
  | [] => true
  | s :: rest =>
    (!(isTerminal s) || rest.all fun t =>
      decide (t ≠ IStatus.checking) && decide (t ≠ IStatus.intervening)) &&
    noRegressionB rest

/-! ## Supporting lemmas about the string utilities -/

lemma startsWithChars_append_self (pat rest : List Char) :
    startsWithChars pat (pat ++ rest) = true := by
  induction pat with
  | nil => rfl
  | cons a pa ih => simp [startsWithChars, ih]

lemma startsWithChars_length_le {pat l : List Char}
    (h : startsWithChars pat l = true) : pat.length ≤ l.length := by
  induction pat generalizing l with
  | nil => simp
  | cons a pa ih =>
    cases l with
    | nil => simp [startsWithChars] at h
    | cons b sb =>
      simp only [startsWithChars, Bool.and_eq_true] at h
      simpa using ih h.2

lemma startsWithChars_append_cancel (x y z : List Char) :
    startsWithChars (x ++ y) (x ++ z) = startsWithChars y z := by
  induction x with
  | nil => rfl
  | cons a t ih => simp [startsWithChars, ih]

lemma removeAllAux_nil (pat : List Char) (k : Nat) : removeAllAux pat [] k = [] := by
  cases k <;> rfl

lemma removeAllAux_succ (pat : List Char) (c : Char) (t : List Char) (k : Nat) :
    removeAllAux pat (c :: t) (k + 1) = removeAllAux pat t k := rfl

lemma removeAllAux_zero (pat : List Char) (c : Char) (t : List Char) :
    removeAllAux pat (c :: t) 0 =
      if startsWithChars pat (c :: t) && !pat.isEmpty then
        removeAllAux pat t (pat.length - 1)
      else c :: removeAllAux pat t 0 := rfl

lemma removeAllAux_skip (pat : List Char) (xs : List Char) : ∀ (ys : List Char),
    removeAllAux pat (xs ++ ys) xs.length = removeAllAux pat ys 0 := by
  induction xs with
  | nil => intro ys; rfl
  | cons c t ih =>
    intro ys
    simpa [removeAllAux_succ] using ih ys

/-- When the text begins with a full occurrence of the pattern, `replace`
consumes it whole and continues after it. -/
lemma removeAll_head_match (pat rest : List Char) (hne : pat ≠ []) :
    removeAll pat (pat ++ rest) = removeAll pat rest := by
  cases pat with
  | nil => exact absurd rfl hne
  | cons a t =>
    rw [removeAll, List.cons_append, removeAllAux_zero]
    have hc : startsWithChars (a :: t) (a :: (t ++ rest)) = true := by
      have := startsWithChars_append_self (a :: t) rest
      simpa using this
    rw [hc]
    simp only [List.isEmpty_cons, Bool.not_false, Bool.and_true, if_true]
    have hl : (a :: t).length - 1 = t.length := by simp
    rw [hl]
    exact removeAllAux_skip (a :: t) t rest

lemma removeAllAux_no_occurrence {pat l : List Char}
    (h : hasSubstr l pat = false) : removeAllAux pat l 0 = l := by
  induction l with
  | nil => rfl
  | cons c t ih =>
    simp only [hasSubstr, Bool.or_eq_false_iff] at h
    simp [removeAllAux, h.1, ih h.2]

/-- A payload with no fence marker, followed by the closing fence, contains
no occurrence of the json fence marker. -/
lemma hasSubstr_fence3_fenceJson : ∀ (p : List Char), hasSubstr p fence3 = false →
    hasSubstr (p ++ fence3) fenceJson = false := by
  intro p
  induction p with
  | nil => intro _; decide
  | cons c p' ih =>
    intro h
    simp only [hasSubstr, Bool.or_eq_false_iff] at h
    have tail := ih h.2
    simp only [List.cons_append, hasSubstr, Bool.or_eq_false_iff]
    refine ⟨?_, tail⟩
    rcases p' with _ | ⟨d, _ | ⟨e, rest⟩⟩
    · simp [fenceJson, fence3, startsWithChars]
    · simp [fenceJson, fence3, startsWithChars]
    · have h1 := h.1
      simp only [fence3, fenceJson, startsWithChars, Bool.and_eq_false_iff] at h1 ⊢
      tauto

/-- Removing the fence marker from a fence-free payload followed by that
marker yields the payload back (the closing fence is consumed whole, also
when the payload ends in stray backticks). -/
lemma removeAll_fence3_closing : ∀ (p : List Char), hasSubstr p fence3 = false →
    removeAllAux fence3 (p ++ fence3) 0 = p
  | [], _ => by decide
  | [c], _ => by
    by_cases hc : c = '`'
    · subst hc; decide
    · simp [removeAllAux_zero, removeAllAux_succ, removeAllAux_nil, startsWithChars,
        fence3, Ne.symm hc]
  | [c, d], _ => by
    by_cases hc : c = '`' <;> by_cases hd : d = '`'
    · subst hc; subst hd; decide
    · subst hc
      simp [removeAllAux_zero, removeAllAux_succ, removeAllAux_nil, startsWithChars,
        fence3, Ne.symm hd]
    · subst hd
      simp [removeAllAux_zero, removeAllAux_succ, removeAllAux_nil, startsWithChars,
        fence3, Ne.symm hc]
    · simp [removeAllAux_zero, removeAllAux_succ, removeAllAux_nil, startsWithChars,
        fence3, Ne.symm hc, Ne.symm hd]
  | c :: d :: e :: rest, h => by
    have hsw : startsWithChars fence3 (c :: d :: e :: rest) = false := by
      have h' : hasSubstr (c :: d :: e :: rest) fence3 = false := h
      simp only [hasSubstr, Bool.or_eq_false_iff] at h'
      exact h'.1
    have htail : hasSubstr (d :: e :: rest) fence3 = false := by
      have h' : hasSubstr (c :: d :: e :: rest) fence3 = false := h
      simp only [hasSubstr, Bool.or_eq_false_iff] at h' ⊢
      exact h'.2
    have hiter := removeAll_fence3_closing (d :: e :: rest) htail
    have hcond : startsWithChars fence3 (c :: ((d :: e :: rest) ++ fence3)) = false := by
      simp only [fence3, startsWithChars, List.cons_append] at hsw ⊢
      exact hsw
    rw [List.cons_append, removeAllAux_zero, hcond]
    simp only [Bool.false_and, Bool.false_eq_true, if_false]
    rw [hiter]

/-- A list not starting with "json" still does not start with "json" after
the closing fence is appended. -/
lemma startsWithChars_json_append (p : List Char)
    (h : startsWithChars ['j', 's', 'o', 'n'] p = false) :
    startsWithChars ['j', 's', 'o', 'n'] (p ++ fence3) = false := by
  rcases p with _ | ⟨a, _ | ⟨b, _ | ⟨c, _ | ⟨d, rest⟩⟩⟩⟩
  · decide
  · simp [startsWithChars, fence3]
  · simp [startsWithChars, fence3]
  · simp [startsWithChars, fence3]
  · simp only [startsWithChars, List.cons_append] at h ⊢
    exact h

/-- `str.strip()` does nothing on a text that starts with a non-space
character and ends with the fence marker. -/
lemma pyStripChars_fenced (a : Char) (mid : List Char) (ha : isPySpace a = false) :
    pyStripChars (a :: (mid ++ fence3)) = a :: (mid ++ fence3) := by
  unfold pyStripChars
  rw [List.dropWhile_cons]
  simp only [ha, Bool.false_eq_true, if_false]
  have : (a :: (mid ++ fence3)).reverse = '`' :: '`' :: '`' :: (mid.reverse ++ [a]) := by
    simp [fence3, List.reverse_append]
  rw [this, List.dropWhile_cons]
  norm_num [isPySpace]
  simp [fence3, List.reverse_append]

/-! ## Claim C1 -/

/-- C1: the activation gate is a pure function of the two participant-list
lengths, returning true iff (humans ≥ 1 and agents ≥ 2) or (humans ≥ 2 and
agents ≥ 1); in particular the full 16-case table over counts 0..3 matches
that formula. -/
theorem activation_gate_formula :
    (∀ (users : List UserEntry) (agents : List AgentEntry),
      should_activate_intervention users agents = true ↔
        (1 ≤ users.length ∧ 2 ≤ agents.length) ∨
        (2 ≤ users.length ∧ 1 ≤ agents.length)) ∧
    (∀ hu ag : Fin 4,
      should_activate_intervention (List.replicate hu.1 0) (List.replicate ag.1 0) =
        decide ((1 ≤ hu.1 ∧ 2 ≤ ag.1) ∨ (2 ≤ hu.1 ∧ 1 ≤ ag.1))) := by
  constructor
  · intro users agents
    simp [should_activate_intervention]
  · decide

/-! ## Claim C5 (corrected) -/

/-- C5 counterexample: a member whose contact handle is present and whose
identity resolution fails is classified Human even though the name-keyword
heuristic signals Agent ("Agent" occurs in the display name); the claim's
"in every resolution-failure branch the keyword heuristic decides" is false
for the handle-present branch (lines 279-285 always classify as user). -/
theorem resolver_failure_counterexample :
    keyword_heuristic "Agent Smith" = true ∧
    classify_participant (fun _ => none) "u1" (some "smith@example.com") "Agent Smith" =
      Classified.user ⟨"u1", "smith@example.com", "Agent Smith"⟩ := by decide

/-- C5 amended: resolution failure never aborts (the classifier is total and
always yields a Human or Agent entry); when the contact handle is absent the
keyword heuristic decides (match means Agent, no match means Human), but when
a handle is present the member is always classified Human, regardless of the
heuristic. -/
theorem resolver_failure_amended (fetch : String → Option UserInfo)
    (pid : String) (email : Option String) (username : String)
    (hfail : fetch (if emailFalsy email then pid else email.getD "") = none) :
    classify_participant fetch pid email username =
      if emailFalsy email then
        (if keyword_heuristic username then Classified.agent ⟨pid, email, username, "agent"⟩
         else Classified.user ⟨pid, emailOrId pid email, strOr username "사용자"⟩)
      else Classified.user ⟨pid, emailOrId pid email, strOr username "사용자"⟩ := by
  by_cases h : emailFalsy email
  · simp only [h, if_true] at hfail
    simp [classify_participant, h, hfail]
  · simp only [Bool.not_eq_true] at h
    simp only [h, Bool.false_eq_true, if_false] at hfail
    simp [classify_participant, h, hfail]

/-- C5 witness: a handle-less member named "번역 도우미" whose resolution
fails is classified Agent by the keyword heuristic. -/
theorem resolver_failure_amended_witness :
    ((fun _ : String => (none : Option UserInfo))
        (if emailFalsy none then "a9" else (none : Option String).getD "") = none) ∧
    classify_participant (fun _ => none) "a9" none "번역 도우미" =
      Classified.agent ⟨"a9", none, "번역 도우미", "agent"⟩ :=
  ⟨rfl, (resolver_failure_amended (fun _ => none) "a9" none "번역 도우미" rfl).trans (by decide)⟩

/-! ## Claim C8 (corrected) -/

/-- C8 counterexample: for the valid JSON payload
(backslash-x7b)"reason": "a(three backticks) b"(backslash-x7d), fence
stripping of the fenced output removes the fence-marker occurrence inside
the JSON string literal as well (str.replace removes all occurrences), so
the text handed to the decoder differs from the trimmed inner payload — the
decoded reason field becomes "a b" instead of "a``` b". -/
theorem fence_strip_counterexample :
    strip_code_fences ("```json\n\x7b\"reason\": \"a``` b\"\x7d\n```".data) =
      "\x7b\"reason\": \"a b\"\x7d".data ∧
    pyStripChars ("\n\x7b\"reason\": \"a``` b\"\x7d\n".data) =
      "\x7b\"reason\": \"a``` b\"\x7d".data ∧
    strip_code_fences ("```json\n\x7b\"reason\": \"a``` b\"\x7d\n```".data) ≠
      pyStripChars ("\n\x7b\"reason\": \"a``` b\"\x7d\n".data) := by
  refine ⟨by decide, by decide, by decide⟩

/-- C8 amended: fence stripping removes every occurrence of the marker
strings, not only the surrounding ones; for a payload that contains no
occurrence of the fence marker (and, for the plain fence, does not begin
with "json"), the stripped result is exactly the trimmed inner payload, so
structural decoding sees the payload alone. -/
theorem fence_strip_amended (p : List Char)
    (hp : hasSubstr p fence3 = false)
    (hjson : startsWithChars ['j', 's', 'o', 'n'] p = false) :
    strip_code_fences (fenceJson ++ (p ++ fence3)) = pyStripChars p ∧
    strip_code_fences (fence3 ++ (p ++ fence3)) = pyStripChars p := by
  constructor
  · have hstrip : pyStripChars (fenceJson ++ (p ++ fence3)) = fenceJson ++ (p ++ fence3) := by
      have := pyStripChars_fenced '`' (['`', '`', 'j', 's', 'o', 'n'] ++ p) (by decide)
      simpa [fenceJson, List.append_assoc] using this
    have hstart : startsWithChars fenceJson (fenceJson ++ (p ++ fence3)) = true :=
      startsWithChars_append_self _ _
    have hrm1 : removeAll fenceJson (fenceJson ++ (p ++ fence3)) = p ++ fence3 := by
      rw [removeAll_head_match _ _ (by decide)]
      exact removeAllAux_no_occurrence (hasSubstr_fence3_fenceJson p hp)
    have hrm2 : removeAll fence3 (p ++ fence3) = p := removeAll_fence3_closing p hp
    unfold strip_code_fences
    rw [hstrip, hstart]
    simp only [if_true, hrm1, hrm2]
  · have hstrip : pyStripChars (fence3 ++ (p ++ fence3)) = fence3 ++ (p ++ fence3) := by
      have := pyStripChars_fenced '`' (['`', '`'] ++ p) (by decide)
      simpa [fence3, List.append_assoc] using this
    have hnjson : startsWithChars fenceJson (fence3 ++ (p ++ fence3)) = false := by
      have hcancel : startsWithChars (fence3 ++ ['j', 's', 'o', 'n']) (fence3 ++ (p ++ fence3)) =
          startsWithChars ['j', 's', 'o', 'n'] (p ++ fence3) :=
        startsWithChars_append_cancel _ _ _
      rw [show fenceJson = fence3 ++ ['j', 's', 'o', 'n'] by decide, hcancel]
      exact startsWithChars_json_append p hjson
    have hstart : startsWithChars fence3 (fence3 ++ (p ++ fence3)) = true :=
      startsWithChars_append_self _ _
    have hrm : removeAll fence3 (fence3 ++ (p ++ fence3)) = p := by
      rw [removeAll_head_match _ _ (by decide)]
      exact removeAll_fence3_closing p hp
    unfold strip_code_fences
    rw [hstrip, hnjson, hstart]
    simp only [Bool.false_eq_true, if_false, if_true, hrm]

/-- C8 witness: the usual fenced decision payload round-trips to the trimmed
inner payload under both fence forms. -/
theorem fence_strip_amended_witness :
    hasSubstr ("\n\x7b\"should_intervene\": false\x7d\n".data) fence3 = false ∧
    startsWithChars ['j', 's', 'o', 'n'] ("\n\x7b\"should_intervene\": false\x7d\n".data) = false ∧
    (strip_code_fences (fenceJson ++ ("\n\x7b\"should_intervene\": false\x7d\n".data ++ fence3)) =
        pyStripChars ("\n\x7b\"should_intervene\": false\x7d\n".data) ∧
      strip_code_fences (fence3 ++ ("\n\x7b\"should_intervene\": false\x7d\n".data ++ fence3)) =
        pyStripChars ("\n\x7b\"should_intervene\": false\x7d\n".data)) :=
  ⟨by decide, by decide,
    fence_strip_amended ("\n\x7b\"should_intervene\": false\x7d\n".data) (by decide) (by decide)⟩

/-! ## Supporting lemmas about mention detection and trace shapes -/

lemma findAgentForMention_isSome (m : List Char) : ∀ (ags : List AgentEntry),
    (findAgentForMention m ags).isSome = ags.any (fun a => mentionMatch m a.username) := by
  intro ags
  induction ags with
  | nil => rfl
  | cons a rest ih =>
    by_cases h : mentionMatch m a.username
    · simp [findAgentForMention, h]
    · simp [findAgentForMention, h, ih]

lemma findMentionedAgentIn_isSome (agents : List AgentEntry) : ∀ (ms : List (List Char)),
    (findMentionedAgentIn agents ms).isSome =
      ms.any (fun m => agents.any fun a => mentionMatch m a.username) := by
  intro ms
  induction ms with
  | nil => rfl
  | cons m rest ih =>
    have hfa := findAgentForMention_isSome m agents
    cases hm : findAgentForMention m agents with
    | some a =>
      rw [hm] at hfa
      simp [findMentionedAgentIn, hm, ← hfa]
    | none =>
      rw [hm] at hfa
      simp [findMentionedAgentIn, hm, ih, ← hfa]

lemma map_status_guard (g : Bool) (x : StatusWrite) :
    (if g then [x] else []).map StatusWrite.status = if g then [x.status] else [] := by
  cases g <;> simp

/-! ## Claim C4 -/

/-- C4: when some extracted token matches an agent (token contained in the
display name case-insensitively or vice versa, tokens in extraction order,
agents in list order, first match wins), the pipeline writes exactly one
terminal status, `not_intervening`, with the mention reason, and neither the
activation gate nor the decision engine is invoked. -/
theorem mention_short_circuit (env : Env) (mid : Int) (text : String)
    (hh : env.history_exn = none)
    (hmatch : (findMentions env.isW text.data).any
      (fun m => env.agents.any fun a => mentionMatch m a.username) = true)
    (hg : env.is_group = true) (hx : env.msg_exists = true) :
    (process_intervention_async env mid text).decisionCalls = 0 ∧
    (process_intervention_async env mid text).gateCalls = 0 ∧
    ∃ ag, findMentionedAgent env.isW text.data env.agents = some ag ∧
      (process_intervention_async env mid text).msgWrites =
        [⟨.not_intervening, some (mentionReason ag.username)⟩] := by
  have hsome : (findMentionedAgent env.isW text.data env.agents).isSome = true := by
    rw [findMentionedAgent, findMentionedAgentIn_isSome]
    exact hmatch
  obtain ⟨ag, hag⟩ := Option.isSome_iff_exists.mp hsome
  refine ⟨?_, ?_, ag, hag, ?_⟩ <;>
    simp [process_intervention_async, hh, hag, update_message_intervention, hg, hx]

/-! ## Claim C2 -/

/-- C2: when structural decoding of the inference output fails (after fence
handling), the decision engine returns the fail-safe value — no
intervention, a decode-failure reason, and null agent id, confidence and
selection reason — and the pipeline run finishes with a single
`not_intervening` status write, never `failed`. -/
theorem decode_failure_failsafe (env : Env) (mid : Int) (text raw e : String)
    (hh : env.history_exn = none)
    (hm : findMentionedAgent env.isW text.data env.agents = none)
    (hgate : should_activate_intervention env.users env.agents = true)
    (hinf : env.inference = .ok raw)
    (hjson : env.jsonLoads (strip_code_fences raw.data) = .error e)
    (hg : env.is_group = true) (hx : env.msg_exists = true) :
    check_intervention_and_select_agent env.inference env.jsonLoads =
      ⟨false, some ("JSON 파싱 실패: " ++ e), none, none, none⟩ ∧
    (process_intervention_async env mid text).msgWrites =
      [⟨.not_intervening, some ("JSON 파싱 실패: " ++ e)⟩] := by
  have hc : check_intervention_and_select_agent env.inference env.jsonLoads =
      ⟨false, some ("JSON 파싱 실패: " ++ e), none, none, none⟩ := by
    rw [hinf]
    simp [check_intervention_and_select_agent, hjson]
  refine ⟨hc, ?_⟩
  simp [process_intervention_async, hh, hm, hgate, hc, update_message_intervention, hg, hx]

/-! ## Claim C3 -/

/-- C3: when the decision is to intervene with a concrete (non-"default")
agent id and the named-agent responder raises, the dispatch coordinator
falls back to the default responder: one response message is still appended
(attributed to the default assistant and tagged with the originating
message id) and the status writes end in `completed`, not `failed`. -/
theorem responder_failure_fallback (env : Env) (mid : Int) (text sid err : String)
    (hh : env.history_exn = none)
    (hm : findMentionedAgent env.isW text.data env.agents = none)
    (hgate : should_activate_intervention env.users env.agents = true)
    (hsi : (check_intervention_and_select_agent env.inference env.jsonLoads).should_intervene
      = true)
    (hsel : (check_intervention_and_select_agent env.inference env.jsonLoads).selected_agent_id
      = some sid)
    (hne : sid ≠ "") (hnd : sid ≠ "default")
    (hr : env.named_responder = .error err)
    (hap : env.append_exns = [])
    (hg : env.is_group = true) (hx : env.msg_exists = true) :
    (process_intervention_async env mid text).appended =
      [⟨"AI 어시스턴트", env.default_response, none, some mid, true⟩] ∧
    (process_intervention_async env mid text).msgWrites.map StatusWrite.status =
      [.intervening, .completed] := by
  have hnt : namedTarget
      (check_intervention_and_select_agent env.inference env.jsonLoads).selected_agent_id =
      some sid := by
    rw [hsel]
    simp [namedTarget, hne, hnd]
  constructor <;>
    simp [process_intervention_async, hh, hm, hgate, hsi, hnt, hr, dispatchFallback,
      appendExn, hap, update_message_intervention, inline_completed_update, hg, hx]

/-! ## Claim C6 -/

/-- C6: every successful intervening run — named-agent success, named-agent
failure with fallback, or direct default routing — appends exactly one
response message, and its back-reference equals the originating message id. -/
theorem single_response_back_reference (env : Env) (mid : Int) (text : String)
    (hh : env.history_exn = none)
    (hm : findMentionedAgent env.isW text.data env.agents = none)
    (hgate : should_activate_intervention env.users env.agents = true)
    (hsi : (check_intervention_and_select_agent env.inference env.jsonLoads).should_intervene
      = true)
    (hap : env.append_exns = []) :
    (process_intervention_async env mid text).appended.map AppendedMsg.user_message_id =
      [some mid] := by
  cases hnt : namedTarget
      (check_intervention_and_select_agent env.inference env.jsonLoads).selected_agent_id with
  | none =>
    simp [process_intervention_async, hh, hm, hgate, hsi, hnt, appendExn, hap]
  | some sid =>
    cases hr : env.named_responder with
    | error e =>
      simp [process_intervention_async, hh, hm, hgate, hsi, hnt, hr, dispatchFallback,
        appendExn, hap]
    | ok respOpt =>
      simp [process_intervention_async, hh, hm, hgate, hsi, hnt, hr, appendExn, hap]

/-! ## Claim C7 -/

/-- C7: over all oracle outcomes — mention short-circuit, gate failure,
decision either way, responder failure, append failures raising into the
outer handler — the sequence of intervention-status writes for one pipeline
execution (starting from the `checking` set at scheduling time) never moves
from a terminal state back to `checking` or `intervening`. -/
theorem status_writes_monotone (env : Env) (mid : Int) (text : String) :
    noRegressionB (IStatus.checking ::
      (process_intervention_async env mid text).msgWrites.map StatusWrite.status) = true := by
  have hsingle : ∀ (p : Prop) (hp : Decidable p) (s : IStatus),
      noRegressionB (IStatus.checking :: (if p then [s] else [])) = true := by
    intro p hp s
    by_cases h : p
    · simp only [h, if_true]
      cases s <;> decide
    · simp only [h, if_false]
      decide
  have hpair : ∀ (p : Prop) (hp : Decidable p) (t : IStatus),
      noRegressionB (IStatus.checking ::
        ((if p then [IStatus.intervening] else []) ++ (if p then [t] else []))) = true := by
    intro p hp t
    by_cases h : p
    · simp only [h, if_true]
      cases t <;> decide
    · simp only [h, if_false]
      decide
  simp only [process_intervention_async, dispatchFallback]
  cases henv : env.history_exn with
  | some e =>
    simpa [update_message_intervention, apply_ite (List.map StatusWrite.status)]
      using hsingle (env.is_group = true ∧ env.msg_exists = true) inferInstance IStatus.failed
  | none =>
    cases hma : findMentionedAgent env.isW text.data env.agents with
    | some a =>
      simpa [update_message_intervention, apply_ite (List.map StatusWrite.status)]
        using hsingle (env.is_group = true ∧ env.msg_exists = true) inferInstance
          IStatus.not_intervening
    | none =>
      cases hgate : should_activate_intervention env.users env.agents with
      | false =>
        simpa [update_message_intervention, apply_ite (List.map StatusWrite.status)]
          using hsingle (env.is_group = true ∧ env.msg_exists = true) inferInstance
            IStatus.not_intervening
      | true =>
        cases hsi : (check_intervention_and_select_agent env.inference
            env.jsonLoads).should_intervene with
        | false =>
          simpa [update_message_intervention, apply_ite (List.map StatusWrite.status)]
            using hsingle (env.is_group = true ∧ env.msg_exists = true) inferInstance
              IStatus.not_intervening
        | true =>
          cases hnt : namedTarget (check_intervention_and_select_agent env.inference
              env.jsonLoads).selected_agent_id with
          | none =>
            cases ha0 : appendExn env 0 with
            | none =>
              simpa [update_message_intervention, inline_completed_update,
                    apply_ite (List.map StatusWrite.status)]
                using hpair (env.is_group = true ∧ env.msg_exists = true) inferInstance IStatus.completed
            | some e =>
              simpa [update_message_intervention,
                    apply_ite (List.map StatusWrite.status)]
                using hpair (env.is_group = true ∧ env.msg_exists = true) inferInstance IStatus.failed
          | some sid =>
            cases hr : env.named_responder with
            | error e =>
              cases ha0 : appendExn env 0 with
              | none =>
                simpa [update_message_intervention, inline_completed_update,
                      apply_ite (List.map StatusWrite.status)]
                  using hpair (env.is_group = true ∧ env.msg_exists = true) inferInstance IStatus.completed
              | some e1 =>
                simpa [update_message_intervention,
                      apply_ite (List.map StatusWrite.status)]
                  using hpair (env.is_group = true ∧ env.msg_exists = true) inferInstance IStatus.failed
            | ok respOpt =>
              cases ha0 : appendExn env 0 with
              | none =>
                simpa [update_message_intervention, inline_completed_update,
                      apply_ite (List.map StatusWrite.status)]
                  using hpair (env.is_group = true ∧ env.msg_exists = true) inferInstance IStatus.completed
              | some e0 =>
                cases ha1 : appendExn env 1 with
                | none =>
                  simpa [update_message_intervention, inline_completed_update,
                        apply_ite (List.map StatusWrite.status)]
                    using hpair (env.is_group = true ∧ env.msg_exists = true) inferInstance IStatus.completed
                | some e1 =>
                  simpa [update_message_intervention,
                        apply_ite (List.map StatusWrite.status)]
                    using hpair (env.is_group = true ∧ env.msg_exists = true) inferInstance IStatus.failed

/-! ## Claim C10 -/

/-- C10: an ingress call for a non-group conversation with no existing
message id persists the inbound message, returns a null message id and
intervention status `checking`, and schedules no background pipeline. -/
theorem non_group_no_schedule (env : Env) (text uid : String)
    (h : env.is_group = false) :
    (process_user_message_with_intervention env text uid none).2.created =
      [⟨uid, text, .checking, false⟩] ∧
    (process_user_message_with_intervention env text uid none).1.message_id = none ∧
    (process_user_message_with_intervention env text uid none).2.scheduled = [] ∧
    (process_user_message_with_intervention env text uid none).1.intervention_status =
      .checking ∧
    (process_user_message_with_intervention env text uid none).1.message_saved = true := by
  simp [process_user_message_with_intervention, optIntTruthy, h, schedFor]

/-! ## Claim C9 (code bug) -/

/-- C9: evaluating the ingress operation at the failing input
`user_message_id = 0`.  Python truthiness (`if user_message_id:`) treats 0
as absent, so a supplied existing id of 0 makes the code persist a brand-new
message while `message_saved` (computed from `user_message_id is None`)
still reports false — contradicting the docstring "if user_message_id is
provided the message is not saved again" and the claim. -/
theorem ingress_zero_id_divergence :
    (process_user_message_with_intervention
      ⟨[], [], true, true, none, Except.ok "", fun _ => Except.error "",
        Except.error "", "", [], some 7, fun _ => false⟩
      "안녕하세요" "user@example.com" (some 0)).1.message_saved = false ∧
    (process_user_message_with_intervention
      ⟨[], [], true, true, none, Except.ok "", fun _ => Except.error "",
        Except.error "", "", [], some 7, fun _ => false⟩
      "안녕하세요" "user@example.com" (some 0)).2.created =
      [⟨"user@example.com", "안녕하세요", .checking, true⟩] :=
  ⟨rfl, rfl⟩

/-! ## Concrete witness environments -/

/-- A concrete instance of the regex word-character class (ASCII word
characters plus Hangul syllables), used to run the pipeline on the spec's
Korean examples. -/
def hangulWordChar (c : Char) : Bool :=
  c.isAlphanum || c == '_' || (0xAC00 ≤ c.toNat && c.toNat ≤ 0xD7A3)

/-- Two human participants. -/
def usersTwo : List UserEntry :=
  [⟨"u1", "u1@example.com", "철수"⟩, ⟨"u2", "u2@example.com", "영희"⟩]

/-- The translation agent of the spec's scenarios. -/
def agentTranslate : AgentEntry := ⟨"a1", none, "번역봇", "translation"⟩

/-- Environment for the mention scenario. -/
def envMention : Env :=
  ⟨[⟨"u1", "u1@example.com", "철수"⟩], [agentTranslate], true, true, none,
    Except.ok "", fun _ => Except.error "Expecting value", Except.error "down",
    "기본 응답", [], none, hangulWordChar⟩

/-- Environment whose inference output does not decode. -/
def envDecode : Env :=
  ⟨usersTwo, [agentTranslate], true, true, none, Except.ok "응답입니다",
    fun _ => Except.error "Expecting value: line 1 column 1 (char 0)",
    Except.error "down", "기본 응답", [], none, hangulWordChar⟩

/-- Environment whose decision selects agent a1 but whose named responder
raises. -/
def envResponder : Env :=
  ⟨usersTwo, [agentTranslate], true, true, none, Except.ok "decision",
    fun _ => Except.ok ⟨some true, some (some "번역 요청"), some (some "a1"), none, none⟩,
    Except.error "agent down", "폴백 응답", [], none, hangulWordChar⟩

/-- Environment for a non-group conversation. -/
def envNonGroup : Env :=
  ⟨[], [], false, false, none, Except.ok "", fun _ => Except.error "e",
    Except.error "e", "", [], none, fun _ => false⟩

/-! ## Witnesses -/

/-- C4 witness: the spec's example — participants `[번역봇]` and message
`@번역봇 이거 번역해줘` — short-circuits with a mention reason and zero gate
and decision-engine invocations. -/
theorem mention_short_circuit_witness :
    envMention.history_exn = none ∧
    (findMentions envMention.isW "@번역봇 이거 번역해줘".data).any
      (fun m => envMention.agents.any fun a => mentionMatch m a.username) = true ∧
    envMention.is_group = true ∧
    envMention.msg_exists = true ∧
    ((process_intervention_async envMention 5 "@번역봇 이거 번역해줘").decisionCalls = 0 ∧
      (process_intervention_async envMention 5 "@번역봇 이거 번역해줘").gateCalls = 0 ∧
      ∃ ag, findMentionedAgent envMention.isW "@번역봇 이거 번역해줘".data
          envMention.agents = some ag ∧
        (process_intervention_async envMention 5 "@번역봇 이거 번역해줘").msgWrites =
          [⟨.not_intervening, some (mentionReason ag.username)⟩]) :=
  ⟨rfl, by decide, rfl, rfl,
    mention_short_circuit envMention 5 "@번역봇 이거 번역해줘" rfl (by decide) rfl rfl⟩

/-- C2 witness: an undecodable inference output yields the fail-safe result
and a single `not_intervening` write. -/
theorem decode_failure_failsafe_witness :
    envDecode.history_exn = none ∧
    findMentionedAgent envDecode.isW "번역이 필요해요".data envDecode.agents = none ∧
    should_activate_intervention envDecode.users envDecode.agents = true ∧
    envDecode.inference = .ok "응답입니다" ∧
    envDecode.jsonLoads (strip_code_fences "응답입니다".data) =
      .error "Expecting value: line 1 column 1 (char 0)" ∧
    envDecode.is_group = true ∧
    envDecode.msg_exists = true ∧
    (check_intervention_and_select_agent envDecode.inference envDecode.jsonLoads =
        ⟨false, some ("JSON 파싱 실패: " ++ "Expecting value: line 1 column 1 (char 0)"),
          none, none, none⟩ ∧
      (process_intervention_async envDecode 6 "번역이 필요해요").msgWrites =
        [⟨.not_intervening,
          some ("JSON 파싱 실패: " ++ "Expecting value: line 1 column 1 (char 0)")⟩]) :=
  ⟨rfl, by decide, by decide, rfl, rfl, rfl, rfl,
    decode_failure_failsafe envDecode 6 "번역이 필요해요" "응답입니다"
      "Expecting value: line 1 column 1 (char 0)" rfl (by decide) (by decide) rfl rfl rfl rfl⟩

/-- C3 witness: the spec's scenario — two humans, the translation agent a1
selected, the named responder raising — still appends one default-assistant
response and ends `completed`. -/
theorem responder_failure_fallback_witness :
    envResponder.history_exn = none ∧
    findMentionedAgent envResponder.isW "번역 좀 도와줘".data envResponder.agents = none ∧
    should_activate_intervention envResponder.users envResponder.agents = true ∧
    (check_intervention_and_select_agent envResponder.inference
      envResponder.jsonLoads).should_intervene = true ∧
    (check_intervention_and_select_agent envResponder.inference
      envResponder.jsonLoads).selected_agent_id = some "a1" ∧
    envResponder.named_responder = .error "agent down" ∧
    envResponder.append_exns = [] ∧
    ((process_intervention_async envResponder 7 "번역 좀 도와줘").appended =
        [⟨"AI 어시스턴트", envResponder.default_response, none, some 7, true⟩] ∧
      (process_intervention_async envResponder 7 "번역 좀 도와줘").msgWrites.map
          StatusWrite.status = [.intervening, .completed]) :=
  ⟨rfl, by decide, by decide, by decide, by decide, rfl, rfl,
    responder_failure_fallback envResponder 7 "번역 좀 도와줘" "a1" "agent down" rfl
      (by decide) (by decide) (by decide) (by decide) (by decide) (by decide) rfl rfl rfl rfl⟩

/-- C6 witness: in the same selected-agent-raises environment, exactly one
response message is appended and it is tagged with the originating id. -/
theorem single_response_back_reference_witness :
    envResponder.history_exn = none ∧
    findMentionedAgent envResponder.isW "용어 설명 부탁해".data envResponder.agents = none ∧
    should_activate_intervention envResponder.users envResponder.agents = true ∧
    (check_intervention_and_select_agent envResponder.inference
      envResponder.jsonLoads).should_intervene = true ∧
    envResponder.append_exns = [] ∧
    (process_intervention_async envResponder 8 "용어 설명 부탁해").appended.map
      AppendedMsg.user_message_id = [some 8] :=
  ⟨rfl, by decide, by decide, by decide, rfl,
    single_response_back_reference envResponder 8 "용어 설명 부탁해" rfl (by decide)
      (by decide) (by decide) rfl⟩

/-- C10 witness: a non-group ingress call persists the message, returns a
null message id and `checking`, and schedules nothing. -/
theorem non_group_no_schedule_witness :
    envNonGroup.is_group = false ∧
    ((process_user_message_with_intervention envNonGroup "안녕" "u9@example.com" none).2.created =
        [⟨"u9@example.com", "안녕", .checking, false⟩] ∧
      (process_user_message_with_intervention envNonGroup "안녕" "u9@example.com"
        none).1.message_id = none ∧
      (process_user_message_with_intervention envNonGroup "안녕" "u9@example.com"
        none).2.scheduled = [] ∧
      (process_user_message_with_intervention envNonGroup "안녕" "u9@example.com"
        none).1.intervention_status = .checking ∧
      (process_user_message_with_intervention envNonGroup "안녕" "u9@example.com"
        none).1.message_saved = true) :=
  ⟨rfl, non_group_no_schedule envNonGroup "안녕" "u9@example.com" rfl⟩

end InterventionSpec
